import Mathlib

/-!
Verification of the emergency-reparent replication utilities
(`go/vt/vtctl/reparentutil/replication.go`) against their specification.

The Go functions are shallowly embedded: maps become association lists
(Go map keys are unique, which re-appears here as `Nodup` hypotheses),
goroutine fan-out becomes a sequential fold producing the stream of
per-task results in launch order, and the external collaborators that
are not part of the verified source (the tablet-manager RPC client, the
durability policy, the MySQL error classifier) become explicit oracle
parameters.  Components of the repository that are only consumed here
(the `concurrency.ErrorGroup` wait primitive, the position decoder) are
modelled from the specification and marked as such in their doc
comments.
-/

namespace ReparentUtil

/-- Replication thread state of one node: stopped, running, or errored
(spec section 3, Node Replication Status). -/
inductive ReplState where
  | stopped
  | running
  | errored
deriving DecidableEq

/-- Modelled from the spec: a replication position payload is a tagged
union of a set-based (MySQL 5.6 GTID set) variant and a file-offset
variant (spec section 3, Replication Position).  The concrete
`replication.GTIDSet` implementations live outside the given sources. -/
inductive GTIDSet where
  | mysql56 (gtids : List (String × Nat × Nat))
  | filePos (file : String) (pos : Nat)
deriving DecidableEq

/-- Modelled from the spec: `replication.Position` wraps an optional
GTID set; a `none` set is the zero value of the Go struct. -/
structure Position where
  gtidSet : Option GTIDSet
deriving DecidableEq

/-- Modelled from the spec: a position is zero when it represents no
executed transactions (nil set, empty GTID set, or empty file name). -/
def Position.isZero (p : Position) : Bool :=
  match p.gtidSet with
  | none => true
  | some (.mysql56 l) => l.isEmpty
  | some (.filePos f _) => f == ""

/-- Whether the Go type assertion `.(replication.Mysql56GTIDSet)` on the
position's GTID set succeeds: the set is present and set-based. -/
def Position.isMysql56 (p : Position) : Bool :=
  match p.gtidSet with
  | some (.mysql56 _) => true
  | _ => false

/-- Wire form of a position as carried in proto messages.  Modelled from
the spec: decode(wireForm) -> Position | DecodeError (spec section 4.2);
the concrete string parser `replication.DecodePosition` is outside the
given sources, so wire forms are tagged as decodable or malformed. -/
inductive PosWire where
  | valid (p : Position)
  | malformed (msg : String)
deriving DecidableEq

/-- Error values; `wrap` mirrors `vterrors.Wrapf` adding a context
message around a cause. -/
inductive VErr where
  | base (msg : String)
  | wrap (context : String) (cause : VErr)
deriving DecidableEq

/-- Modelled from the spec: `replication.DecodePosition` returns the
position or a decode error (spec section 4.2). -/
def DecodePosition : PosWire → Except VErr Position
  | .valid p => .ok p
  | .malformed msg => .error (.base msg)

/-- One node's replication status (proto `replicationdata.Status`),
restricted to the fields the verified functions consult. -/
structure ReplicationStatus where
  ioState : ReplState
  sqlState : ReplState
  position : Position
  relayLogPosition : Position
  backupRunning : Bool
deriving DecidableEq

/-- Proto `replicationdata.StopReplicationStatus`: the status captured
before and after stopping replication; either may be absent. -/
structure StopReplicationStatus where
  before : Option ReplicationStatus
  after : Option ReplicationStatus
deriving DecidableEq

/-- Proto `replicationdata.PrimaryStatus`: the executed position
reported by a demoted primary, still in wire form. -/
structure PrimaryStatus where
  position : PosWire
deriving DecidableEq

/-- A tablet, restricted to the fields the verified functions consult:
its aliasName (the string form used as map key) and its keyspace. -/
structure Tablet where
  aliasName : String
  keyspace : String
deriving DecidableEq

/-- Lookup in an association list, mirroring a Go map read. -/
def alookup {α : Type} : List (String × α) → String → Option α
  | [], _ => none
  | (k, v) :: rest, a => if k = a then some v else alookup rest a

/-- Insertion into an association list, mirroring a Go map assignment:
overwrite the existing binding or append a new one. -/
def ainsert {α : Type} : List (String × α) → String → α → List (String × α)
  | [], a, v => [(a, v)]
  | (k, w) :: rest, a, v =>
      if k = a then (a, v) :: rest else (k, w) :: ainsert rest a v

/-- Modelled from the spec: `replication.ProtoToReplicationStatus` on a
possibly-absent proto status; proto getters yield zero values when the
message is nil. -/
def protoToReplicationStatus : Option ReplicationStatus → ReplicationStatus
  | some s => s
  | none =>
      { ioState := .stopped, sqlState := .stopped, position := ⟨none⟩,
        relayLogPosition := ⟨none⟩, backupRunning := false }

/-- Whether any node's relay log position is set-based: the `isGTIDBased`
flag computed by `FindPositionsOfAllCandidates`. -/
def isGTIDBasedOf (rsm : List (String × ReplicationStatus)) : Bool :=
  rsm.any (fun p => p.2.relayLogPosition.isMysql56)

/-- Whether any node's relay log position is not set-based: the
`isNonGTIDBased` flag computed by `FindPositionsOfAllCandidates`. -/
def isNonGTIDBasedOf (rsm : List (String × ReplicationStatus)) : Bool :=
  rsm.any (fun p => !(p.2.relayLogPosition.isMysql56))

/-- First node whose relay log position is zero, mirroring the
`FirstErrorRecorder` that records the first empty-relay-position error. -/
def findZeroRelay (rsm : List (String × ReplicationStatus)) : Option String :=
  (rsm.find? (fun p => p.2.relayLogPosition.isZero)).map (fun p => p.1)

/-- Positions loop of `FindPositionsOfAllCandidates`: assign every
status-map node its relay position (GTID-based cluster) or its plain
replication position (otherwise). -/
def buildPositionMap (isGTIDBased : Bool) :
    List (String × ReplicationStatus) → List (String × Position) →
    List (String × Position)
  | [], positionMap => positionMap
  | (aliasName, status) :: rest, positionMap =>
      buildPositionMap isGTIDBased rest
        (ainsert positionMap aliasName
          (if isGTIDBased then status.relayLogPosition else status.position))

/-- Primary-status loop of `FindPositionsOfAllCandidates`: decode each
demoted primary's executed position and overwrite (or insert) its entry,
failing on the first undecodable position. -/
def insertPrimaries :
    List (String × Position) → List (String × PrimaryStatus) →
    Except VErr (List (String × Position))
  | positionMap, [] => .ok positionMap
  | positionMap, (aliasName, primaryStatus) :: rest =>
      match DecodePosition primaryStatus.position with
      | .error e =>
          .error (.wrap
            ("could not decode a primary status executed position for tablet "
              ++ aliasName) e)
      | .ok executedPosition =>
          insertPrimaries (ainsert positionMap aliasName executedPosition) rest

/-- Embedding of `FindPositionsOfAllCandidates`
(replication.go lines 46-110): classify the cluster as GTID-based or
not, reject an empty relay position in a GTID-based cluster, reject a
mix of representations, then build the aliasName-to-position map. -/
def FindPositionsOfAllCandidates
    (statusMap : List (String × StopReplicationStatus))
    (primaryStatusMap : List (String × PrimaryStatus)) :
    Except VErr (List (String × Position) × Bool) :=
  let replicationStatusMap :=
    statusMap.map (fun p => (p.1, protoToReplicationStatus p.2.after))
  let isGTIDBased := isGTIDBasedOf replicationStatusMap
  let isNonGTIDBased := isNonGTIDBasedOf replicationStatusMap
  if isGTIDBased && (findZeroRelay replicationStatusMap).isSome then
    .error (.base
      ("encountered tablet " ++ ((findZeroRelay replicationStatusMap).getD "")
        ++ " with no relay log position, when at least one other tablet in the status map has GTID based relay log positions"))
  else if isGTIDBased && isNonGTIDBased then
    .error (.base "encountered mix of GTID-based and non GTID-based relay logs")
  else
    match insertPrimaries (buildPositionMap isGTIDBased replicationStatusMap [])
        primaryStatusMap with
    | .error e => .error e
    | .ok positionMap => .ok (positionMap, isGTIDBased)

/-- Outcome of one `StopReplicationAndGetStatus` RPC, already classified
the way `fillStatus` classifies it: success, the specific `ERNotReplica`
SQL error (the `sqlerror` classifier is outside the given sources, so
the oracle reports the classification directly), or any other error. -/
inductive StopReplicationResult where
  | success (status : StopReplicationStatus)
  | notReplicaErr
  | otherErr (e : VErr)
deriving DecidableEq

/-- Outcome of one `DemotePrimary` RPC. -/
inductive DemoteResult where
  | success (primaryStatus : PrimaryStatus)
  | failure (e : VErr)
deriving DecidableEq

/-- Oracle for the tablet-manager RPC client: the per-tablet outcome of
each RPC the snapshot builder may issue, keyed by tablet alias string. -/
structure TMClient where
  stopReplicationAndGetStatus : String → StopReplicationResult
  demotePrimary : String → DemoteResult

/-- The `concurrency.Error` message each task sends on the result
channel: an optional error and the must-wait-for flag. -/
structure ConcError where
  err : Option VErr
  mustWaitFor : Bool
deriving DecidableEq

/-- The snapshot aggregate built by one fencing pass
(`replicationSnapshot`, replication.go lines 156-161). -/
structure replicationSnapshot where
  statusMap : List (String × StopReplicationStatus)
  primaryStatusMap : List (String × PrimaryStatus)
  reachableTablets : List Tablet
  tabletsBackupState : List (String × Bool)
deriving DecidableEq

/-- The empty snapshot every pass starts from. -/
def emptySnapshot : replicationSnapshot :=
  { statusMap := [], primaryStatusMap := [], reachableTablets := [],
    tabletsBackupState := [] }

/-- Result of one `fillStatus` task: the snapshot after its mutation,
the `concurrency.Error` it sends, and whether it issued a demote RPC. -/
structure FillStatusResult where
  snap : replicationSnapshot
  concErr : ConcError
  demoteCalled : Bool

/-- Embedding of the `fillStatus` closure (replication.go lines
196-247): stop replication on one tablet; on success record its status,
backup flag and reachability; on the `ERNotReplica` SQL error demote the
tablet instead, recording the primary status on success and a wrapped
demotion error on failure; on any other error record a wrapped error. -/
def fillStatus (tmc : TMClient) (res : replicationSnapshot)
    (aliasName : String) (tablet : Tablet) (mustWaitForTablet : Bool) :
    FillStatusResult :=
  match tmc.stopReplicationAndGetStatus aliasName with
  | .success stopReplicationStatus =>
      let isTakingBackup :=
        match stopReplicationStatus.after with
        | some a => a.backupRunning
        | none =>
            match stopReplicationStatus.before with
            | some b => b.backupRunning
            | none => false
      { snap :=
          { res with
            tabletsBackupState :=
              ainsert res.tabletsBackupState aliasName isTakingBackup
            statusMap := ainsert res.statusMap aliasName stopReplicationStatus
            reachableTablets := res.reachableTablets ++ [tablet] }
        concErr := { err := none, mustWaitFor := mustWaitForTablet }
        demoteCalled := false }
  | .notReplicaErr =>
      match tmc.demotePrimary aliasName with
      | .success primaryStatus =>
          { snap :=
              { res with
                primaryStatusMap :=
                  ainsert res.primaryStatusMap aliasName primaryStatus
                reachableTablets := res.reachableTablets ++ [tablet] }
            concErr := { err := none, mustWaitFor := mustWaitForTablet }
            demoteCalled := true }
      | .failure e =>
          { snap := res
            concErr :=
              { err := some (.wrap
                  ("replica " ++ aliasName
                    ++ " thinks it is primary but we failed to demote it") e)
                mustWaitFor := mustWaitForTablet }
            demoteCalled := true }
  | .otherErr e =>
      { snap := res
        concErr :=
          { err := some (.wrap
              ("error when getting replication status for alias " ++ aliasName)
              e)
            mustWaitFor := mustWaitForTablet }
        demoteCalled := false }

/-- Sequentialized goroutine fan-out: run `fillStatus` for every
launched tablet, accumulating the shared snapshot and emitting the
stream of `concurrency.Error` results in launch order. -/
def runFillStatuses (tmc : TMClient) (tabletAliasToWaitFor : String) :
    List (String × Tablet) → replicationSnapshot →
    replicationSnapshot × List ConcError
  | [], res => (res, [])
  | (aliasName, tablet) :: rest, res =>
      let r := fillStatus tmc res aliasName tablet
        (tabletAliasToWaitFor == aliasName)
      let next := runFillStatuses tmc tabletAliasToWaitFor rest r.snap
      (next.1, r.concErr :: next.2)

/-- The `concurrency.ErrorGroup` parameters set up by
`stopReplicationAndBuildStatusMaps` (replication.go lines 284-290). -/
structure ErrorGroup where
  numGoroutines : Int
  numRequiredSuccesses : Int
  numAllowedErrors : Int
  numErrorsToWaitFor : Nat
deriving DecidableEq

/-- Modelled from the spec: the loop of `concurrency.ErrorGroup.Wait`
(the `concurrency` package is outside the given sources; spec section
4.1).  Results are consumed one at a time from the channel; `Wait`
returns once every must-wait-for task has reported and either the
required-success threshold is met or the allowed-error cap is exceeded,
or once every task has reported.  The value is the prefix of the result
stream processed before `Wait` returns. -/
def errorGroupWaitLoop (numRequiredSuccesses numAllowedErrors : Int)
    (numErrorsToWaitFor : Nat) :
    List ConcError → Nat → Nat → Nat → List ConcError
  | [], _, _, _ => []
  | c :: rest, successes, errorCount, mustWaitSeen =>
      let successes1 := if c.err.isNone then successes + 1 else successes
      let errorCount1 := if c.err.isSome then errorCount + 1 else errorCount
      let mustWaitSeen1 := if c.mustWaitFor then mustWaitSeen + 1 else mustWaitSeen
      if numErrorsToWaitFor ≤ mustWaitSeen1 ∧
          (numRequiredSuccesses ≤ (successes1 : Int) ∨
            numAllowedErrors < (errorCount1 : Int)) then
        [c]
      else
        c :: errorGroupWaitLoop numRequiredSuccesses numAllowedErrors
          numErrorsToWaitFor rest successes1 errorCount1 mustWaitSeen1

/-- Prefix of the result stream processed before `ErrorGroup.Wait`
returns, starting from zeroed counters. -/
def waitProcessedPrefix (g : ErrorGroup) (results : List ConcError) :
    List ConcError :=
  errorGroupWaitLoop g.numRequiredSuccesses g.numAllowedErrors
    g.numErrorsToWaitFor results 0 0 0

/-- Errors accumulated by the error recorder `ErrorGroup.Wait` returns:
every error observed before `Wait` returned, in arrival order. -/
def waitRecordedErrors (g : ErrorGroup) (results : List ConcError) :
    List VErr :=
  (waitProcessedPrefix g results).filterMap (fun c => c.err)

/-- Modelled from the spec: the recorder's `Error()` accessor, with the
first recorded error retrievable distinctly for reporting (spec section
4.1). -/
def errRecorderError (errors : List VErr) : VErr :=
  errors.headD (.base "")

/-- The alias-string form of the optional must-wait-for tablet alias;
the empty string when there is none (replication.go lines 255-259). -/
def aliasToWaitForOf : Option String → String
  | some a => a
  | none => ""

/-- The tablets actually launched: every non-ignored entry of the tablet
map, in map order. -/
def launchedTablets (tabletMap : List (String × Tablet))
    (ignoredTablets : List String) : List (String × Tablet) :=
  tabletMap.filter (fun p => !(ignoredTablets.contains p.1))

/-- The `allTablets` slice: every tablet of the map, ignored or not
(replication.go line 261). -/
def allTabletsOf (tabletMap : List (String × Tablet)) : List Tablet :=
  tabletMap.map (fun p => p.2)

/-- The `numGoRoutines` count: map size minus ignored-set size
(replication.go line 275). -/
def numGoRoutinesOf (tabletMap : List (String × Tablet))
    (ignoredTablets : List String) : Int :=
  (tabletMap.length : Int) - (ignoredTablets.length : Int)

/-- The required-success threshold passed to the task group:
`numGoRoutines - 1`, or `numGoRoutines` when waiting for all tablets
(replication.go lines 277-282). -/
def requiredSuccessesOf (tabletMap : List (String × Tablet))
    (ignoredTablets : List String) (waitForAllTablets : Bool) : Int :=
  if waitForAllTablets then numGoRoutinesOf tabletMap ignoredTablets
  else numGoRoutinesOf tabletMap ignoredTablets - 1

/-- Number of launched tablets flagged must-wait-for: the
`numErrorsToWaitFor` counter (replication.go lines 256-270). -/
def numErrorsToWaitForOf (tabletMap : List (String × Tablet))
    (ignoredTablets : List String) (tabletToWaitFor : Option String) : Nat :=
  ((launchedTablets tabletMap ignoredTablets).filter
    (fun p => aliasToWaitForOf tabletToWaitFor == p.1)).length

/-- The `ErrorGroup` value constructed by the snapshot builder, with the
allowed-error cap set to the full map size so the group never fast-fails
on errors alone (replication.go lines 284-290). -/
def errgroupOf (tabletMap : List (String × Tablet))
    (ignoredTablets : List String) (tabletToWaitFor : Option String)
    (waitForAllTablets : Bool) : ErrorGroup :=
  { numGoroutines := numGoRoutinesOf tabletMap ignoredTablets
    numRequiredSuccesses :=
      requiredSuccessesOf tabletMap ignoredTablets waitForAllTablets
    numAllowedErrors := (tabletMap.length : Int)
    numErrorsToWaitFor :=
      numErrorsToWaitForOf tabletMap ignoredTablets tabletToWaitFor }

/-- The snapshot and the stream of task results produced by the fan-out
over the launched tablets. -/
def snapshotAndResults (tmc : TMClient)
    (tabletMap : List (String × Tablet)) (ignoredTablets : List String)
    (tabletToWaitFor : Option String) :
    replicationSnapshot × List ConcError :=
  runFillStatuses tmc (aliasToWaitForOf tabletToWaitFor)
    (launchedTablets tabletMap ignoredTablets) emptySnapshot

/-- Errors recorded by the task group during one pass. -/
def recordedErrorsOf (tmc : TMClient)
    (tabletMap : List (String × Tablet)) (ignoredTablets : List String)
    (tabletToWaitFor : Option String) (waitForAllTablets : Bool) :
    List VErr :=
  waitRecordedErrors
    (errgroupOf tabletMap ignoredTablets tabletToWaitFor waitForAllTablets)
    (snapshotAndResults tmc tabletMap ignoredTablets tabletToWaitFor).2

/-- Outcome of `stopReplicationAndBuildStatusMaps`, instrumented with
whether the durability policy's fencing check `haveRevoked` was
invoked. -/
structure BuildStatusMapsOutcome where
  result : Except VErr replicationSnapshot
  fencingCheckInvoked : Bool

/-- Embedding of `stopReplicationAndBuildStatusMaps` (replication.go
lines 167-303): fan out `fillStatus` over the non-ignored tablets, wait
on the task group, return the snapshot when at most one error was
recorded, and otherwise consult the durability policy's `haveRevoked`
fencing check, failing with the recorded error wrapped when the check
cannot prove safety.  The durability policy is an oracle parameter; the
instrumentation bit records whether `haveRevoked` was consulted. -/
def stopReplicationAndBuildStatusMaps (tmc : TMClient)
    (tabletMap : List (String × Tablet)) (ignoredTablets : List String)
    (tabletToWaitFor : Option String)
    (haveRevoked : List Tablet → List Tablet → Bool)
    (waitForAllTablets : Bool) : BuildStatusMapsOutcome :=
  let res := (snapshotAndResults tmc tabletMap ignoredTablets tabletToWaitFor).1
  let recordedErrors :=
    recordedErrorsOf tmc tabletMap ignoredTablets tabletToWaitFor
      waitForAllTablets
  if recordedErrors.length ≤ 1 then
    { result := .ok res, fencingCheckInvoked := false }
  else if haveRevoked res.reachableTablets (allTabletsOf tabletMap) then
    { result := .ok res, fencingCheckInvoked := true }
  else
    { result := .error (.wrap
        "could not reach sufficient tablets to guarantee safety"
        (errRecorderError recordedErrors))
      fencingCheckInvoked := true }

/-- A durability policy handle (`policy.Durabler`); its contents are
irrelevant to the verified control flow, only whether it was obtained
and consulted. -/
structure DurabilityPolicy where
  name : String
deriving DecidableEq

/-- Outcome of `SetReplicationSource`, instrumented with whether the
replication-source-change RPC was issued and whether the durability
policy was consulted (looked up or queried for semi-sync). -/
structure SetReplicationSourceOutcome where
  result : Except VErr Unit
  rpcIssued : Bool
  durabilityConsulted : Bool

/-- Embedding of `SetReplicationSource` (replication.go lines 133-152).
The topology server, policy registry and RPC client are oracle
parameters giving the outcome of each call the function makes: resolving
the shard primary (any failure is swallowed and the function returns
nil), reading the keyspace durability name, looking up the policy,
asking it whether the replica is semi-sync, and issuing the
`SetReplicationSource` RPC. -/
def SetReplicationSource
    (getShardPrimaryForTablet : Except VErr Tablet)
    (getKeyspaceDurability : Except VErr String)
    (getDurabilityPolicy : String → Except VErr DurabilityPolicy)
    (isReplicaSemiSync : DurabilityPolicy → Tablet → Tablet → Bool)
    (tmcSetReplicationSource : Tablet → Tablet → Bool → Except VErr Unit)
    (tablet : Tablet) : SetReplicationSourceOutcome :=
  match getShardPrimaryForTablet with
  | .error _ =>
      { result := .ok (), rpcIssued := false, durabilityConsulted := false }
  | .ok shardPrimary =>
      match getKeyspaceDurability with
      | .error e =>
          { result := .error e, rpcIssued := false,
            durabilityConsulted := false }
      | .ok durabilityName =>
          match getDurabilityPolicy durabilityName with
          | .error e =>
              { result := .error e, rpcIssued := false,
                durabilityConsulted := true }
          | .ok durability =>
              let isSemiSync := isReplicaSemiSync durability shardPrimary tablet
              { result := tmcSetReplicationSource tablet shardPrimary isSemiSync
                rpcIssued := true
                durabilityConsulted := true }

/-- Spec-side definition for the required-success claim: the number of
non-ignored tablets, read directly off the tablet map ("`numCandidates`
= total non-ignored nodes", spec section 4.3 step 3).  To be compared
with the source-side `numGoRoutinesOf`. -/
def specNonIgnoredCount (tabletMap : List (String × Tablet))
    (ignoredTablets : List String) : Nat :=
  (tabletMap.filter (fun p => !(ignoredTablets.contains p.1))).length

/-! ## Basic lemmas about the association-list operations -/

theorem alookup_ainsert_self {α : Type} (m : List (String × α)) (k : String)
    (v : α) : alookup (ainsert m k v) k = some v := by
  induction m with
  | nil => simp [ainsert, alookup]
  | cons hd tl ih =>
      obtain ⟨k1, v1⟩ := hd
      by_cases hk : k1 = k
      · simp [ainsert, hk, alookup]
      · simp [ainsert, hk, alookup, ih]

theorem alookup_ainsert_ne {α : Type} (m : List (String × α)) (k a : String)
    (v : α) (h : a ≠ k) : alookup (ainsert m k v) a = alookup m a := by
  induction m with
  | nil => simp [ainsert, alookup, Ne.symm h]
  | cons hd tl ih =>
      obtain ⟨k1, v1⟩ := hd
      by_cases hk : k1 = k
      · subst hk
        simp [ainsert, alookup, Ne.symm h]
      · simp only [ainsert, if_neg hk, alookup]
        by_cases ha : k1 = a
        · simp [ha]
        · simp [ha, ih]

theorem alookup_ainsert_isSome {α : Type} (m : List (String × α))
    (k a : String) (v : α)
    (h : (alookup (ainsert m k v) a).isSome = true) :
    a = k ∨ (alookup m a).isSome = true := by
  by_cases hk : a = k
  · exact Or.inl hk
  · right
    rw [alookup_ainsert_ne m k a v hk] at h
    exact h

/-! ## Concrete fixtures used by the witnesses -/

/-- A tablet whose alias string is the map key "a". -/
def tabletA : Tablet := { aliasName := "a", keyspace := "ks" }

/-- A tablet whose alias string is the map key "b". -/
def tabletB : Tablet := { aliasName := "b", keyspace := "ks" }

/-- A stop-replication status with no before/after payloads. -/
def statusTrivial : StopReplicationStatus := { before := none, after := none }

/-- An RPC oracle on which every stop-replication call succeeds. -/
def tmcAllSuccess : TMClient :=
  { stopReplicationAndGetStatus := fun _ => .success statusTrivial
    demotePrimary := fun _ => .failure (.base "unused") }

/-- An RPC oracle on which every stop-replication call fails with a
generic error. -/
def tmcAllFail : TMClient :=
  { stopReplicationAndGetStatus := fun _ => .otherErr (.base "unreachable")
    demotePrimary := fun _ => .failure (.base "unused") }

/-! ## C1: at most one recorded error is the trivially safe path -/

/-- C1: for every call to `stopReplicationAndBuildStatusMaps` in which
the task group records at most one per-node error, the call returns the
built snapshot successfully and the durability policy's fencing check
`haveRevoked` is never invoked. -/
theorem stopRepl_trivial_safe_no_fencing
    (tmc : TMClient) (tabletMap : List (String × Tablet))
    (ignoredTablets : List String) (tabletToWaitFor : Option String)
    (haveRevoked : List Tablet → List Tablet → Bool)
    (waitForAllTablets : Bool)
    (herr : (recordedErrorsOf tmc tabletMap ignoredTablets tabletToWaitFor
        waitForAllTablets).length ≤ 1) :
    (stopReplicationAndBuildStatusMaps tmc tabletMap ignoredTablets
        tabletToWaitFor haveRevoked waitForAllTablets).result
      = .ok (snapshotAndResults tmc tabletMap ignoredTablets
          tabletToWaitFor).1 ∧
    (stopReplicationAndBuildStatusMaps tmc tabletMap ignoredTablets
        tabletToWaitFor haveRevoked waitForAllTablets).fencingCheckInvoked
      = false := by
  simp only [stopReplicationAndBuildStatusMaps]
  rw [if_pos herr]
  exact ⟨rfl, rfl⟩

/-- Witness for C1 at a single all-success tablet map. -/
theorem stopRepl_trivial_safe_no_fencing_w :
    (recordedErrorsOf tmcAllSuccess [("a", tabletA)] [] none false).length
        ≤ 1 ∧
    ((stopReplicationAndBuildStatusMaps tmcAllSuccess [("a", tabletA)] []
        none (fun _ _ => false) false).result
      = .ok (snapshotAndResults tmcAllSuccess [("a", tabletA)] [] none).1 ∧
    (stopReplicationAndBuildStatusMaps tmcAllSuccess [("a", tabletA)] []
        none (fun _ _ => false) false).fencingCheckInvoked = false) :=
  ⟨by decide,
    stopRepl_trivial_safe_no_fencing tmcAllSuccess [("a", tabletA)] [] none
      (fun _ _ => false) false (by decide)⟩

/-! ## C2: fencing failure wraps the first recorded error -/

/-- C2: for every call in which two or more per-node errors are recorded
and the durability policy cannot prove the unreached tablets are unable
to accept writes, the call fails without returning a snapshot and the
returned error wraps the first recorded per-node error, stating that
insufficient tablets were reachable to guarantee safety. -/
theorem stopRepl_fencing_failure_wraps_first
    (tmc : TMClient) (tabletMap : List (String × Tablet))
    (ignoredTablets : List String) (tabletToWaitFor : Option String)
    (haveRevoked : List Tablet → List Tablet → Bool)
    (waitForAllTablets : Bool)
    (herr : 2 ≤ (recordedErrorsOf tmc tabletMap ignoredTablets
        tabletToWaitFor waitForAllTablets).length)
    (hrev : haveRevoked
        (snapshotAndResults tmc tabletMap ignoredTablets
          tabletToWaitFor).1.reachableTablets
        (allTabletsOf tabletMap) = false) :
    (stopReplicationAndBuildStatusMaps tmc tabletMap ignoredTablets
        tabletToWaitFor haveRevoked waitForAllTablets).result
      = .error (.wrap "could not reach sufficient tablets to guarantee safety"
          (errRecorderError (recordedErrorsOf tmc tabletMap ignoredTablets
            tabletToWaitFor waitForAllTablets))) ∧
    (recordedErrorsOf tmc tabletMap ignoredTablets tabletToWaitFor
        waitForAllTablets).head?
      = some (errRecorderError (recordedErrorsOf tmc tabletMap ignoredTablets
          tabletToWaitFor waitForAllTablets)) := by
  have hnot : ¬ (recordedErrorsOf tmc tabletMap ignoredTablets tabletToWaitFor
      waitForAllTablets).length ≤ 1 := by omega
  constructor
  · simp only [stopReplicationAndBuildStatusMaps]
    rw [if_neg hnot, if_neg (by simp [hrev])]
  · cases h : recordedErrorsOf tmc tabletMap ignoredTablets tabletToWaitFor
        waitForAllTablets with
    | nil => rw [h] at herr; simp at herr
    | cons a t => simp [errRecorderError]

/-- Witness for C2 on a two-tablet map where both stop calls fail and
the fencing check refuses. -/
theorem stopRepl_fencing_failure_wraps_first_w :
    2 ≤ (recordedErrorsOf tmcAllFail [("a", tabletA), ("b", tabletB)] []
        none false).length ∧
    ((stopReplicationAndBuildStatusMaps tmcAllFail
        [("a", tabletA), ("b", tabletB)] [] none (fun _ _ => false)
        false).result
      = .error (.wrap "could not reach sufficient tablets to guarantee safety"
          (errRecorderError (recordedErrorsOf tmcAllFail
            [("a", tabletA), ("b", tabletB)] [] none false))) ∧
    (recordedErrorsOf tmcAllFail [("a", tabletA), ("b", tabletB)] [] none
        false).head?
      = some (errRecorderError (recordedErrorsOf tmcAllFail
          [("a", tabletA), ("b", tabletB)] [] none false))) :=
  ⟨by decide,
    stopRepl_fencing_failure_wraps_first tmcAllFail
      [("a", tabletA), ("b", tabletB)] [] none (fun _ _ => false) false
      (by decide) rfl⟩

/-! ## C9: the not-a-replica fallback demotes the tablet -/

/-- C9: for every polled tablet whose stop-replication call fails with
the specific not-a-replica SQL error, a demote call is issued instead;
on demote success the returned primary status is recorded in
`primaryStatusMap` and the tablet is appended to `reachableTablets`; on
demote failure the wrapped demotion error is recorded as the task's
classified error and the snapshot is left untouched. -/
theorem fillStatus_not_replica_demotes
    (tmc : TMClient) (res : replicationSnapshot) (aliasName : String)
    (tablet : Tablet) (mustWaitForTablet : Bool)
    (h : tmc.stopReplicationAndGetStatus aliasName = .notReplicaErr) :
    (fillStatus tmc res aliasName tablet mustWaitForTablet).demoteCalled
        = true ∧
    (∀ ps, tmc.demotePrimary aliasName = .success ps →
      (fillStatus tmc res aliasName tablet mustWaitForTablet).snap
        = { res with
            primaryStatusMap := ainsert res.primaryStatusMap aliasName ps
            reachableTablets := res.reachableTablets ++ [tablet] } ∧
      (fillStatus tmc res aliasName tablet mustWaitForTablet).concErr.err
        = none) ∧
    (∀ e, tmc.demotePrimary aliasName = .failure e →
      (fillStatus tmc res aliasName tablet mustWaitForTablet).snap = res ∧
      (fillStatus tmc res aliasName tablet mustWaitForTablet).concErr.err
        = some (.wrap
            ("replica " ++ aliasName
              ++ " thinks it is primary but we failed to demote it") e)) := by
  cases hd : tmc.demotePrimary aliasName with
  | success ps0 =>
      refine ⟨by simp [fillStatus, h, hd], ?_, ?_⟩
      · intro ps hps
        cases hps
        exact ⟨by simp [fillStatus, h, hd], by simp [fillStatus, h, hd]⟩
      · intro e he
        cases he
  | failure e0 =>
      refine ⟨by simp [fillStatus, h, hd], ?_, ?_⟩
      · intro ps hps
        cases hps
      · intro e he
        cases he
        exact ⟨by simp [fillStatus, h, hd], by simp [fillStatus, h, hd]⟩

/-- An RPC oracle whose stop call reports the not-a-replica SQL error
and whose demote call succeeds with a decodable primary position. -/
def tmcNotReplicaDemoteOk : TMClient :=
  { stopReplicationAndGetStatus := fun _ => .notReplicaErr
    demotePrimary := fun _ =>
      .success { position := .valid ⟨some (.mysql56 [("sid1", 1, 5)])⟩ } }

/-- Witness for C9 on an oracle that reports not-a-replica and demotes
successfully. -/
theorem fillStatus_not_replica_demotes_w :
    tmcNotReplicaDemoteOk.stopReplicationAndGetStatus "a" = .notReplicaErr ∧
    ((fillStatus tmcNotReplicaDemoteOk emptySnapshot "a" tabletA
        false).demoteCalled = true ∧
    (∀ ps, tmcNotReplicaDemoteOk.demotePrimary "a" = .success ps →
      (fillStatus tmcNotReplicaDemoteOk emptySnapshot "a" tabletA false).snap
        = { emptySnapshot with
            primaryStatusMap := ainsert emptySnapshot.primaryStatusMap "a" ps
            reachableTablets := emptySnapshot.reachableTablets ++ [tabletA] } ∧
      (fillStatus tmcNotReplicaDemoteOk emptySnapshot "a" tabletA
          false).concErr.err = none) ∧
    (∀ e, tmcNotReplicaDemoteOk.demotePrimary "a" = .failure e →
      (fillStatus tmcNotReplicaDemoteOk emptySnapshot "a" tabletA false).snap
        = emptySnapshot ∧
      (fillStatus tmcNotReplicaDemoteOk emptySnapshot "a" tabletA
          false).concErr.err
        = some (.wrap
            ("replica " ++ "a"
              ++ " thinks it is primary but we failed to demote it") e))) :=
  ⟨rfl, fillStatus_not_replica_demotes tmcNotReplicaDemoteOk emptySnapshot "a"
    tabletA false rfl⟩

/-! ## C10: a shard-primary resolution failure is swallowed -/

/-- C10: for every call to `SetReplicationSource` in which resolving the
shard primary from the topology fails for any reason, the function
returns success without issuing the replication-source-change RPC and
without consulting the durability policy. -/
theorem setReplicationSource_swallows_primary_resolution_error
    (getKeyspaceDurability : Except VErr String)
    (getDurabilityPolicy : String → Except VErr DurabilityPolicy)
    (isReplicaSemiSync : DurabilityPolicy → Tablet → Tablet → Bool)
    (tmcSetReplicationSource : Tablet → Tablet → Bool → Except VErr Unit)
    (tablet : Tablet) (e : VErr) :
    (SetReplicationSource (.error e) getKeyspaceDurability
        getDurabilityPolicy isReplicaSemiSync tmcSetReplicationSource
        tablet).result = .ok () ∧
    (SetReplicationSource (.error e) getKeyspaceDurability
        getDurabilityPolicy isReplicaSemiSync tmcSetReplicationSource
        tablet).rpcIssued = false ∧
    (SetReplicationSource (.error e) getKeyspaceDurability
        getDurabilityPolicy isReplicaSemiSync tmcSetReplicationSource
        tablet).durabilityConsulted = false :=
  ⟨rfl, rfl, rfl⟩

/-! ## C5: the required-success threshold -/

/-- Counterexample to C5 as stated: with tablet map {a} and ignored set
{b} (an ignored alias that is not a key of the map, which the Go types
allow), the code's threshold is `len(tabletMap) - len(ignored) - 1 = -1`
while the number of non-ignored tablets minus one is `0`. -/
theorem requiredSuccesses_claim_ctex :
    ¬ (requiredSuccessesOf [("a", tabletA)] ["b"] false
        = (specNonIgnoredCount [("a", tabletA)] ["b"] : Int) - 1) := by
  decide

/-- C5 as amended: provided every ignored alias is a key of the tablet
map (keys and ignored aliases being duplicate-free, as Go maps and sets
guarantee), the required-success threshold passed to the task group
equals the number of non-ignored tablets minus one, and equals the
number of non-ignored tablets when `waitForAllTablets` is set. -/
theorem requiredSuccesses_amended
    (tabletMap : List (String × Tablet)) (ignoredTablets : List String)
    (waitForAllTablets : Bool)
    (hnd : (tabletMap.map (fun p => p.1)).Nodup)
    (hndI : ignoredTablets.Nodup)
    (hsub : ∀ a ∈ ignoredTablets, a ∈ tabletMap.map (fun p => p.1)) :
    requiredSuccessesOf tabletMap ignoredTablets waitForAllTablets
      = if waitForAllTablets
        then (specNonIgnoredCount tabletMap ignoredTablets : Int)
        else (specNonIgnoredCount tabletMap ignoredTablets : Int) - 1 := by
  have hfilter : ((tabletMap.map (fun p => p.1)).filter
      (fun a => ignoredTablets.contains a)).length
      = ignoredTablets.length := by
    apply Nat.le_antisymm
    · apply List.Subperm.length_le
      apply List.subperm_of_subset (hnd.filter _)
      intro x hx
      have hx2 := (List.mem_filter.mp hx).2
      simpa using hx2
    · apply List.Subperm.length_le
      apply List.subperm_of_subset hndI
      intro x hx
      exact List.mem_filter.mpr ⟨hsub x hx, by simpa using hx⟩
  have hmap : ((tabletMap.map (fun p => p.1)).filter
      (fun a => ignoredTablets.contains a)).length
      = (tabletMap.filter (fun p => ignoredTablets.contains p.1)).length := by
    rw [List.filter_map, List.length_map]
    rfl
  have hsplit := List.length_eq_length_filter_add
    (l := tabletMap) (fun p => ignoredTablets.contains p.1)
  have hkey : specNonIgnoredCount tabletMap ignoredTablets
      + ignoredTablets.length = tabletMap.length := by
    unfold specNonIgnoredCount
    omega
  unfold requiredSuccessesOf numGoRoutinesOf
  cases waitForAllTablets <;> simp <;> omega

/-- Witness for the amended C5: two tablets, one of them ignored, gives
a threshold of zero. -/
theorem requiredSuccesses_amended_w :
    (([("a", tabletA), ("b", tabletB)].map
        (fun p : String × Tablet => p.1)).Nodup) ∧
    (["b"].Nodup) ∧
    (∀ a ∈ ["b"], a ∈ [("a", tabletA), ("b", tabletB)].map
        (fun p : String × Tablet => p.1)) ∧
    (requiredSuccessesOf [("a", tabletA), ("b", tabletB)] ["b"] false
      = if false
        then (specNonIgnoredCount [("a", tabletA), ("b", tabletB)]
            ["b"] : Int)
        else (specNonIgnoredCount [("a", tabletA), ("b", tabletB)]
            ["b"] : Int) - 1) :=
  ⟨by decide, by decide, by decide,
    requiredSuccesses_amended [("a", tabletA), ("b", tabletB)] ["b"] false
      (by decide) (by decide) (by decide)⟩

/-! ## C4: Wait never returns while a flagged task is outstanding -/

theorem fillStatus_mustWaitFor (tmc : TMClient) (res : replicationSnapshot)
    (aliasName : String) (tablet : Tablet) (m : Bool) :
    (fillStatus tmc res aliasName tablet m).concErr.mustWaitFor = m := by
  cases h : tmc.stopReplicationAndGetStatus aliasName with
  | success st => simp [fillStatus, h]
  | notReplicaErr =>
      cases hd : tmc.demotePrimary aliasName <;> simp [fillStatus, h, hd]
  | otherErr e => simp [fillStatus, h]

theorem runFillStatuses_flagged_length (tmc : TMClient) (w : String) :
    ∀ (l : List (String × Tablet)) (res : replicationSnapshot),
    ((runFillStatuses tmc w l res).2.filter
      (fun c => c.mustWaitFor)).length
      = (l.filter (fun p => w == p.1)).length := by
  intro l
  induction l with
  | nil => intro res; simp [runFillStatuses]
  | cons p rest ih =>
      intro res
      obtain ⟨a, t⟩ := p
      simp only [runFillStatuses]
      rw [List.filter_cons, List.filter_cons]
      cases hw : (w == a)
      · simp only [fillStatus_mustWaitFor, hw]
        simp [ih]
      · simp only [fillStatus_mustWaitFor, hw]
        simp [ih]

theorem errorGroupWaitLoop_flagged (rq al : Int) (nm : Nat) :
    ∀ (stream : List ConcError) (s e mw : Nat),
    (stream.filter (fun c => c.mustWaitFor)).length + mw ≤ nm →
    (errorGroupWaitLoop rq al nm stream s e mw).filter
        (fun c => c.mustWaitFor)
      = stream.filter (fun c => c.mustWaitFor) := by
  intro stream
  induction stream with
  | nil => intro s e mw _; simp [errorGroupWaitLoop]
  | cons c rest ih =>
      intro s e mw h
      have hrest : (rest.filter (fun c => c.mustWaitFor)).length
          + (if c.mustWaitFor then mw + 1 else mw) ≤ nm := by
        rw [List.filter_cons] at h
        cases hc : c.mustWaitFor <;> simp [hc] at h ⊢ <;> omega
      simp only [errorGroupWaitLoop]
      by_cases hcond : (nm ≤ (if c.mustWaitFor then mw + 1 else mw) ∧
          (rq ≤ (((if c.err.isNone then s + 1 else s) : Nat) : Int) ∨
            al < (((if c.err.isSome then e + 1 else e) : Nat) : Int)))
      · rw [if_pos hcond]
        have h1 := hcond.1
        have hnil : rest.filter (fun c => c.mustWaitFor) = [] := by
          apply List.length_eq_zero.mp
          cases hc : c.mustWaitFor <;> simp [hc] at h1 hrest <;> omega
        rw [List.filter_cons, List.filter_cons, hnil]
        cases hc : c.mustWaitFor <;> simp [hc]
      · rw [if_neg hcond]
        have hrec := ih (if c.err.isNone then s + 1 else s)
          (if c.err.isSome then e + 1 else e)
          (if c.mustWaitFor then mw + 1 else mw) hrest
        rw [List.filter_cons, List.filter_cons, hrec]

/-- C4: the task group's `Wait` never returns while the flagged
must-wait-for tablet is still outstanding, even when the
required-success threshold is already met by other tablets: every
result flagged `mustWaitFor` in the stream produced by the fan-out of
`stopReplicationAndBuildStatusMaps` is processed by `Wait` before it
returns, so the flagged tablet's success-or-error classification is
recorded in the processed prefix. -/
theorem errorGroupWait_processes_must_wait_for
    (tmc : TMClient) (tabletMap : List (String × Tablet))
    (ignoredTablets : List String) (tabletToWaitFor : Option String)
    (waitForAllTablets : Bool) :
    (waitProcessedPrefix
        (errgroupOf tabletMap ignoredTablets tabletToWaitFor
          waitForAllTablets)
        (snapshotAndResults tmc tabletMap ignoredTablets
          tabletToWaitFor).2).filter (fun c => c.mustWaitFor)
      = ((snapshotAndResults tmc tabletMap ignoredTablets
          tabletToWaitFor).2).filter (fun c => c.mustWaitFor) := by
  unfold waitProcessedPrefix
  apply errorGroupWaitLoop_flagged
  unfold snapshotAndResults
  rw [runFillStatuses_flagged_length]
  simp [errgroupOf, numErrorsToWaitForOf]

/-! ## C3: disjointness and reachability of the snapshot maps -/

/-- The snapshot invariant of the spec: the key sets of `statusMap` and
`primaryStatusMap` are disjoint, and every alias that is a key of either
map belongs to a tablet in `reachableTablets`. -/
def snapshotMapsInv (snap : replicationSnapshot) : Prop :=
  (∀ a, (alookup snap.statusMap a).isSome = true →
    alookup snap.primaryStatusMap a = none) ∧
  (∀ a, ((alookup snap.statusMap a).isSome = true ∨
      (alookup snap.primaryStatusMap a).isSome = true) →
    ∃ t, t ∈ snap.reachableTablets ∧ t.aliasName = a)

theorem fillStatus_lookup_other (tmc : TMClient) (res : replicationSnapshot)
    (aliasName : String) (tablet : Tablet) (m : Bool) (x : String)
    (hx : x ≠ aliasName) :
    alookup (fillStatus tmc res aliasName tablet m).snap.statusMap x
      = alookup res.statusMap x ∧
    alookup (fillStatus tmc res aliasName tablet m).snap.primaryStatusMap x
      = alookup res.primaryStatusMap x := by
  cases h : tmc.stopReplicationAndGetStatus aliasName with
  | success st =>
      exact ⟨by simp [fillStatus, h, alookup_ainsert_ne _ _ _ _ hx],
        by simp [fillStatus, h]⟩
  | notReplicaErr =>
      cases hd : tmc.demotePrimary aliasName with
      | success ps =>
          exact ⟨by simp [fillStatus, h, hd],
            by simp [fillStatus, h, hd, alookup_ainsert_ne _ _ _ _ hx]⟩
      | failure e => exact ⟨by simp [fillStatus, h, hd], by simp [fillStatus, h, hd]⟩
  | otherErr e => exact ⟨by simp [fillStatus, h], by simp [fillStatus, h]⟩

theorem fillStatus_inv (tmc : TMClient) (res : replicationSnapshot)
    (aliasName : String) (tablet : Tablet) (m : Bool)
    (halias : tablet.aliasName = aliasName)
    (hfreshS : alookup res.statusMap aliasName = none)
    (hfreshP : alookup res.primaryStatusMap aliasName = none)
    (hinv : snapshotMapsInv res) :
    snapshotMapsInv (fillStatus tmc res aliasName tablet m).snap := by
  obtain ⟨hdisj, hreach⟩ := hinv
  cases h : tmc.stopReplicationAndGetStatus aliasName with
  | success st =>
      constructor
      · intro a ha
        simp only [fillStatus, h] at ha ⊢
        rcases alookup_ainsert_isSome _ _ _ _ ha with rfl | hs
        · exact hfreshP
        · exact hdisj a hs
      · intro a ha
        simp only [fillStatus, h] at ha ⊢
        rcases ha with ha | ha
        · rcases alookup_ainsert_isSome _ _ _ _ ha with rfl | hs
          · exact ⟨tablet, by simp, halias⟩
          · obtain ⟨t, ht, hta⟩ := hreach a (Or.inl hs)
            exact ⟨t, by simp [ht], hta⟩
        · obtain ⟨t, ht, hta⟩ := hreach a (Or.inr ha)
          exact ⟨t, by simp [ht], hta⟩
  | notReplicaErr =>
      cases hd : tmc.demotePrimary aliasName with
      | success ps =>
          constructor
          · intro a ha
            simp only [fillStatus, h, hd] at ha ⊢
            by_cases hax : a = aliasName
            · subst hax
              rw [hfreshS] at ha
              simp at ha
            · rw [alookup_ainsert_ne _ _ _ _ hax]
              exact hdisj a ha
          · intro a ha
            simp only [fillStatus, h, hd] at ha ⊢
            rcases ha with ha | ha
            · obtain ⟨t, ht, hta⟩ := hreach a (Or.inl ha)
              exact ⟨t, by simp [ht], hta⟩
            · rcases alookup_ainsert_isSome _ _ _ _ ha with rfl | hs
              · exact ⟨tablet, by simp, halias⟩
              · obtain ⟨t, ht, hta⟩ := hreach a (Or.inr hs)
                exact ⟨t, by simp [ht], hta⟩
      | failure e =>
          constructor
          · intro a ha
            simp only [fillStatus, h, hd] at ha ⊢
            exact hdisj a ha
          · intro a ha
            simp only [fillStatus, h, hd] at ha ⊢
            exact hreach a ha
  | otherErr e =>
      constructor
      · intro a ha
        simp only [fillStatus, h] at ha ⊢
        exact hdisj a ha
      · intro a ha
        simp only [fillStatus, h] at ha ⊢
        exact hreach a ha

theorem runFillStatuses_inv (tmc : TMClient) (w : String) :
    ∀ (l : List (String × Tablet)) (res : replicationSnapshot),
    (l.map (fun p => p.1)).Nodup →
    (∀ p ∈ l, p.2.aliasName = p.1) →
    (∀ p ∈ l, alookup res.statusMap p.1 = none ∧
      alookup res.primaryStatusMap p.1 = none) →
    snapshotMapsInv res →
    snapshotMapsInv (runFillStatuses tmc w l res).1 := by
  intro l
  induction l with
  | nil => intro res _ _ _ hinv; simpa [runFillStatuses] using hinv
  | cons p rest ih =>
      intro res hnd hal hfresh hinv
      obtain ⟨a, t⟩ := p
      have hnd2 : a ∉ rest.map (fun p => p.1) ∧
          (rest.map (fun p => p.1)).Nodup := by
        simpa using hnd
      have hta : t.aliasName = a := hal (a, t) (List.mem_cons_self _ _)
      have hfa := hfresh (a, t) (List.mem_cons_self _ _)
      simp only [runFillStatuses]
      apply ih
      · exact hnd2.2
      · intro q hq
        exact hal q (List.mem_cons_of_mem _ hq)
      · intro q hq
        have hqa : q.1 ≠ a := by
          intro hqeq
          exact hnd2.1 (hqeq ▸ List.mem_map_of_mem (fun p => p.1) hq)
        have hother := fillStatus_lookup_other tmc res a t (w == a) q.1 hqa
        have hq2 := hfresh q (List.mem_cons_of_mem _ hq)
        exact ⟨hother.1.trans hq2.1, hother.2.trans hq2.2⟩
      · exact fillStatus_inv tmc res a t (w == a) hta hfa.1 hfa.2 hinv

/-- C3: for every snapshot returned by
`stopReplicationAndBuildStatusMaps` (over a tablet map with unique keys,
each key being the alias string of its tablet, as the topology
guarantees), the key sets of `statusMap` and `primaryStatusMap` are
disjoint and every tablet whose alias is a key of either map is a member
of `reachableTablets`. -/
theorem stopRepl_snapshot_maps_inv
    (tmc : TMClient) (tabletMap : List (String × Tablet))
    (ignoredTablets : List String) (tabletToWaitFor : Option String)
    (haveRevoked : List Tablet → List Tablet → Bool)
    (waitForAllTablets : Bool) (snap : replicationSnapshot)
    (hnd : (tabletMap.map (fun p => p.1)).Nodup)
    (hal : ∀ p ∈ tabletMap, p.2.aliasName = p.1)
    (hok : (stopReplicationAndBuildStatusMaps tmc tabletMap ignoredTablets
        tabletToWaitFor haveRevoked waitForAllTablets).result = .ok snap) :
    snapshotMapsInv snap := by
  have hsnap : snap = (snapshotAndResults tmc tabletMap ignoredTablets
      tabletToWaitFor).1 := by
    simp only [stopReplicationAndBuildStatusMaps] at hok
    by_cases h1 : (recordedErrorsOf tmc tabletMap ignoredTablets
        tabletToWaitFor waitForAllTablets).length ≤ 1
    · rw [if_pos h1] at hok
      injection hok with hh
      exact hh.symm
    · rw [if_neg h1] at hok
      by_cases h2 : haveRevoked (snapshotAndResults tmc tabletMap
          ignoredTablets tabletToWaitFor).1.reachableTablets
          (allTabletsOf tabletMap) = true
      · rw [if_pos h2] at hok
        injection hok with hh
        exact hh.symm
      · rw [if_neg h2] at hok
        cases hok
  subst hsnap
  unfold snapshotAndResults
  apply runFillStatuses_inv
  · have hsub : List.Sublist
        ((launchedTablets tabletMap ignoredTablets).map (fun p => p.1))
        (tabletMap.map (fun p => p.1)) :=
      List.Sublist.map _ (List.filter_sublist _)
    exact hnd.sublist hsub
  · intro q hq
    exact hal q (List.mem_of_mem_filter hq)
  · intro q _
    exact ⟨rfl, rfl⟩
  · constructor
    · intro a ha
      simp [emptySnapshot, alookup] at ha
    · intro a ha
      simp [emptySnapshot, alookup] at ha

/-- An RPC oracle reporting not-a-replica on tablet "a" (demoted
successfully) and success on every other tablet. -/
def tmcMixedDemote : TMClient :=
  { stopReplicationAndGetStatus := fun a =>
      if a == "a" then .notReplicaErr else .success statusTrivial
    demotePrimary := fun _ =>
      .success { position := .valid ⟨some (.mysql56 [("sid1", 1, 5)])⟩ } }

/-- Witness for C3 on a two-tablet pass in which one tablet is demoted
and the other answers normally. -/
theorem stopRepl_snapshot_maps_inv_w :
    (([("a", tabletA), ("b", tabletB)].map
        (fun p : String × Tablet => p.1)).Nodup) ∧
    (∀ p ∈ [("a", tabletA), ("b", tabletB)], (p.2 : Tablet).aliasName = p.1) ∧
    snapshotMapsInv
      (snapshotAndResults tmcMixedDemote [("a", tabletA), ("b", tabletB)]
        [] none).1 :=
  ⟨by decide, by decide,
    stopRepl_snapshot_maps_inv tmcMixedDemote [("a", tabletA), ("b", tabletB)]
      [] none (fun _ _ => false) false
      (snapshotAndResults tmcMixedDemote [("a", tabletA), ("b", tabletB)]
        [] none).1
      (by decide) (by decide) rfl⟩

/-! ## Lookup lemmas for the position-map construction -/

theorem buildPositionMap_lookup_notin (g : Bool) :
    ∀ (l : List (String × ReplicationStatus))
      (acc : List (String × Position)) (a : String),
    a ∉ l.map (fun p => p.1) →
    alookup (buildPositionMap g l acc) a = alookup acc a := by
  intro l
  induction l with
  | nil => intro acc a _; rfl
  | cons p rest ih =>
      intro acc a ha
      obtain ⟨k, st⟩ := p
      have ha2 : a ≠ k ∧ a ∉ rest.map (fun p => p.1) := by simpa using ha
      simp only [buildPositionMap]
      rw [ih _ a ha2.2, alookup_ainsert_ne _ _ _ _ ha2.1]

theorem buildPositionMap_lookup_mem (g : Bool) :
    ∀ (l : List (String × ReplicationStatus))
      (acc : List (String × Position)) (a : String) (st : ReplicationStatus),
    (l.map (fun p => p.1)).Nodup → (a, st) ∈ l →
    alookup (buildPositionMap g l acc) a
      = some (if g then st.relayLogPosition else st.position) := by
  intro l
  induction l with
  | nil => intro acc a st _ hm; cases hm
  | cons p rest ih =>
      intro acc a st hnd hm
      obtain ⟨k, st0⟩ := p
      have hnd2 : k ∉ rest.map (fun p => p.1) ∧
          (rest.map (fun p => p.1)).Nodup := by simpa using hnd
      rcases List.mem_cons.mp hm with heq | hm2
      · cases heq
        simp only [buildPositionMap]
        rw [buildPositionMap_lookup_notin g rest _ a hnd2.1]
        exact alookup_ainsert_self _ _ _
      · simp only [buildPositionMap]
        exact ih _ a st hnd2.2 hm2

theorem insertPrimaries_lookup_notin :
    ∀ (l : List (String × PrimaryStatus))
      (acc pm : List (String × Position)) (a : String),
    insertPrimaries acc l = .ok pm →
    a ∉ l.map (fun p => p.1) →
    alookup pm a = alookup acc a := by
  intro l
  induction l with
  | nil =>
      intro acc pm a hok _
      simp only [insertPrimaries] at hok
      injection hok with h
      rw [← h]
  | cons p rest ih =>
      intro acc pm a hok ha
      obtain ⟨k, ps⟩ := p
      have ha2 : a ≠ k ∧ a ∉ rest.map (fun p => p.1) := by simpa using ha
      simp only [insertPrimaries] at hok
      cases hd : DecodePosition ps.position with
      | error e => rw [hd] at hok; cases hok
      | ok pos =>
          rw [hd] at hok
          rw [ih _ pm a hok ha2.2, alookup_ainsert_ne _ _ _ _ ha2.1]

theorem insertPrimaries_lookup_mem :
    ∀ (l : List (String × PrimaryStatus))
      (acc pm : List (String × Position)) (a : String) (ps : PrimaryStatus),
    (l.map (fun p => p.1)).Nodup →
    insertPrimaries acc l = .ok pm →
    (a, ps) ∈ l →
    ∃ pos, DecodePosition ps.position = .ok pos ∧
      alookup pm a = some pos := by
  intro l
  induction l with
  | nil => intro acc pm a ps _ _ hm; cases hm
  | cons p rest ih =>
      intro acc pm a ps hnd hok hm
      obtain ⟨k, ps0⟩ := p
      have hnd2 : k ∉ rest.map (fun p => p.1) ∧
          (rest.map (fun p => p.1)).Nodup := by simpa using hnd
      simp only [insertPrimaries] at hok
      cases hd : DecodePosition ps0.position with
      | error e => rw [hd] at hok; cases hok
      | ok pos0 =>
          rw [hd] at hok
          rcases List.mem_cons.mp hm with heq | hm2
          · cases heq
            refine ⟨pos0, hd, ?_⟩
            rw [insertPrimaries_lookup_notin rest _ pm a hok hnd2.1]
            exact alookup_ainsert_self _ _ _
          · exact ih _ pm a ps hnd2.2 hok hm2

theorem insertPrimaries_ok_of_decodes :
    ∀ (l : List (String × PrimaryStatus)) (acc : List (String × Position)),
    (∀ p ∈ l, ∃ pos,
      DecodePosition (p.2 : PrimaryStatus).position = .ok pos) →
    ∃ pm, insertPrimaries acc l = .ok pm := by
  intro l
  induction l with
  | nil => intro acc _; exact ⟨acc, rfl⟩
  | cons p rest ih =>
      intro acc hdec
      obtain ⟨k, ps⟩ := p
      obtain ⟨pos, hpos⟩ := hdec (k, ps) (List.mem_cons_self _ _)
      simp only [insertPrimaries]
      rw [hpos]
      exact ih _ (fun q hq => hdec q (List.mem_cons_of_mem _ hq))

theorem any_map_poly {a b : Type} (l : List a) (f : a → b) (p : b → Bool) :
    (l.map f).any p = l.any (fun x => p (f x)) := by
  induction l with
  | nil => rfl
  | cons x t ih => simp [List.any_cons, ih]

theorem isGTIDBasedOf_map
    (statusMap : List (String × StopReplicationStatus)) :
    isGTIDBasedOf (statusMap.map
        (fun p => (p.1, protoToReplicationStatus p.2.after)))
      = statusMap.any (fun p =>
          (protoToReplicationStatus p.2.after).relayLogPosition.isMysql56) := by
  simp only [isGTIDBasedOf]
  rw [any_map_poly]

theorem isNonGTIDBasedOf_map
    (statusMap : List (String × StopReplicationStatus)) :
    isNonGTIDBasedOf (statusMap.map
        (fun p => (p.1, protoToReplicationStatus p.2.after)))
      = statusMap.any (fun p =>
          !((protoToReplicationStatus
              p.2.after).relayLogPosition.isMysql56)) := by
  simp only [isNonGTIDBasedOf]
  rw [any_map_poly]

theorem rsm_keys (statusMap : List (String × StopReplicationStatus)) :
    (statusMap.map
        (fun p => (p.1, protoToReplicationStatus p.2.after))).map
        (fun p => p.1)
      = statusMap.map (fun p => p.1) := by
  simp [List.map_map, Function.comp]

theorem findPositions_ok_inversion
    (statusMap : List (String × StopReplicationStatus))
    (primaryStatusMap : List (String × PrimaryStatus))
    (positionMap : List (String × Position)) (b : Bool)
    (hok : FindPositionsOfAllCandidates statusMap primaryStatusMap
        = .ok (positionMap, b)) :
    b = isGTIDBasedOf (statusMap.map
        (fun p => (p.1, protoToReplicationStatus p.2.after))) ∧
    insertPrimaries
        (buildPositionMap
          (isGTIDBasedOf (statusMap.map
            (fun p => (p.1, protoToReplicationStatus p.2.after))))
          (statusMap.map (fun p => (p.1, protoToReplicationStatus p.2.after)))
          [])
        primaryStatusMap = .ok positionMap ∧
    (isGTIDBasedOf (statusMap.map
        (fun p => (p.1, protoToReplicationStatus p.2.after)))
      && (findZeroRelay (statusMap.map
        (fun p => (p.1, protoToReplicationStatus p.2.after)))).isSome)
      = false ∧
    (isGTIDBasedOf (statusMap.map
        (fun p => (p.1, protoToReplicationStatus p.2.after)))
      && isNonGTIDBasedOf (statusMap.map
        (fun p => (p.1, protoToReplicationStatus p.2.after))))
      = false := by
  simp only [FindPositionsOfAllCandidates] at hok
  split at hok
  · cases hok
  next h1 =>
    split at hok
    · cases hok
    next h2 =>
      split at hok
      next e heq => cases hok
      next pm0 heq =>
        injection hok with hpair
        rw [Prod.mk.injEq] at hpair
        obtain ⟨hpm, hb⟩ := hpair
        subst hpm
        subst hb
        exact ⟨rfl, heq, by simpa using h1, by simpa using h2⟩

/-- C6: for every successful call to `FindPositionsOfAllCandidates`
(over maps with unique keys, as Go maps guarantee), the returned map
assigns to each node of `statusMap` its relay-log position when the
cluster is GTID-based and its plain replication position otherwise,
then for every node of `primaryStatusMap` overwrites or inserts that
node's entry with its decoded primary-side executed position; the
returned boolean is true exactly when some node's relay-log position is
set-based. -/
theorem findPositions_ok_characterization
    (statusMap : List (String × StopReplicationStatus))
    (primaryStatusMap : List (String × PrimaryStatus))
    (positionMap : List (String × Position)) (b : Bool)
    (hndS : (statusMap.map (fun p => p.1)).Nodup)
    (hndP : (primaryStatusMap.map (fun p => p.1)).Nodup)
    (hok : FindPositionsOfAllCandidates statusMap primaryStatusMap
        = .ok (positionMap, b)) :
    (b = true ↔ ∃ p ∈ statusMap,
      (protoToReplicationStatus p.2.after).relayLogPosition.isMysql56
        = true) ∧
    (∀ p ∈ primaryStatusMap,
      ∃ pos, DecodePosition p.2.position = .ok pos ∧
        alookup positionMap p.1 = some pos) ∧
    (∀ p ∈ statusMap, p.1 ∉ primaryStatusMap.map (fun q => q.1) →
      alookup positionMap p.1
        = some (if b
            then (protoToReplicationStatus p.2.after).relayLogPosition
            else (protoToReplicationStatus p.2.after).position)) := by
  obtain ⟨hb, hins, _, _⟩ :=
    findPositions_ok_inversion statusMap primaryStatusMap positionMap b hok
  refine ⟨?_, ?_, ?_⟩
  · rw [hb, isGTIDBasedOf_map]
    exact List.any_eq_true
  · intro p hp
    obtain ⟨a, ps⟩ := p
    exact insertPrimaries_lookup_mem primaryStatusMap _ positionMap a ps
      hndP hins hp
  · intro p hp hnp
    obtain ⟨a, st⟩ := p
    rw [insertPrimaries_lookup_notin primaryStatusMap _ positionMap a
      hins hnp]
    have hmem : (a, protoToReplicationStatus st.after)
        ∈ statusMap.map (fun p => (p.1, protoToReplicationStatus p.2.after)) :=
      List.mem_map_of_mem _ hp
    have hndR : ((statusMap.map
        (fun p => (p.1, protoToReplicationStatus p.2.after))).map
        (fun p => p.1)).Nodup := by
      rw [rsm_keys]
      exact hndS
    rw [hb]
    exact buildPositionMap_lookup_mem _ _ _ a _ hndR hmem

/-- C7: for every status map containing both a set-based and a
non-set-based relay-log position, `FindPositionsOfAllCandidates` fails
with a fatal error and returns no position map. -/
theorem findPositions_mixed_is_fatal
    (statusMap : List (String × StopReplicationStatus))
    (primaryStatusMap : List (String × PrimaryStatus))
    (hg : ∃ p ∈ statusMap,
      (protoToReplicationStatus p.2.after).relayLogPosition.isMysql56
        = true)
    (hn : ∃ p ∈ statusMap,
      (protoToReplicationStatus p.2.after).relayLogPosition.isMysql56
        = false) :
    ∃ e, FindPositionsOfAllCandidates statusMap primaryStatusMap
      = .error e := by
  have hG : isGTIDBasedOf (statusMap.map
      (fun p => (p.1, protoToReplicationStatus p.2.after))) = true := by
    rw [isGTIDBasedOf_map, List.any_eq_true]
    exact hg
  have hN : isNonGTIDBasedOf (statusMap.map
      (fun p => (p.1, protoToReplicationStatus p.2.after))) = true := by
    rw [isNonGTIDBasedOf_map, List.any_eq_true]
    obtain ⟨p, hp, h⟩ := hn
    exact ⟨p, hp, by simp [h]⟩
  cases hres : FindPositionsOfAllCandidates statusMap primaryStatusMap with
  | error e => exact ⟨e, rfl⟩
  | ok v =>
      exfalso
      obtain ⟨_, _, _, hmix⟩ :=
        findPositions_ok_inversion statusMap primaryStatusMap v.1 v.2
          (by rw [hres])
      rw [hG, hN] at hmix
      cases hmix

/-- C8: if at least one node's relay-log position is set-based and some
node's relay-log position is zero, `FindPositionsOfAllCandidates`
returns a fatal error; if no node's relay position is set-based, a zero
relay position does not cause failure and (whenever every demoted
primary's position decodes, the only other failure source) the call
succeeds with the plain replication positions and a false GTID flag. -/
theorem findPositions_zero_relay
    (statusMap : List (String × StopReplicationStatus))
    (primaryStatusMap : List (String × PrimaryStatus))
    (hndS : (statusMap.map (fun p => p.1)).Nodup) :
    (((∃ p ∈ statusMap,
        (protoToReplicationStatus p.2.after).relayLogPosition.isMysql56
          = true) ∧
      (∃ p ∈ statusMap,
        (protoToReplicationStatus p.2.after).relayLogPosition.isZero
          = true)) →
      ∃ e, FindPositionsOfAllCandidates statusMap primaryStatusMap
        = .error e) ∧
    ((∀ p ∈ statusMap,
        (protoToReplicationStatus p.2.after).relayLogPosition.isMysql56
          = false) →
      (∀ p ∈ primaryStatusMap,
        ∃ pos, DecodePosition p.2.position = .ok pos) →
      ∃ pm, FindPositionsOfAllCandidates statusMap primaryStatusMap
          = .ok (pm, false) ∧
        ∀ p ∈ statusMap, p.1 ∉ primaryStatusMap.map (fun q => q.1) →
          alookup pm p.1
            = some (protoToReplicationStatus p.2.after).position) := by
  constructor
  · rintro ⟨hg, hz⟩
    have hG : isGTIDBasedOf (statusMap.map
        (fun p => (p.1, protoToReplicationStatus p.2.after))) = true := by
      rw [isGTIDBasedOf_map, List.any_eq_true]
      exact hg
    have hfind : (List.find? (fun p => p.2.relayLogPosition.isZero)
        (statusMap.map
          (fun p => (p.1, protoToReplicationStatus p.2.after)))).isSome
        = true := by
      rw [List.find?_isSome]
      obtain ⟨p, hp, h⟩ := hz
      exact ⟨_, List.mem_map_of_mem _ hp, h⟩
    have hZ : (findZeroRelay (statusMap.map
        (fun p => (p.1, protoToReplicationStatus p.2.after)))).isSome
        = true := by
      simp only [findZeroRelay]
      cases hf : List.find? (fun p => p.2.relayLogPosition.isZero)
          (statusMap.map
            (fun p => (p.1, protoToReplicationStatus p.2.after))) with
      | none => rw [hf] at hfind; cases hfind
      | some q => rfl
    cases hres : FindPositionsOfAllCandidates statusMap primaryStatusMap with
    | error e => exact ⟨e, rfl⟩
    | ok v =>
        exfalso
        obtain ⟨_, _, hzero, _⟩ :=
          findPositions_ok_inversion statusMap primaryStatusMap v.1 v.2
            (by rw [hres])
        rw [hG, hZ] at hzero
        cases hzero
  · intro hall hdec
    have hG : isGTIDBasedOf (statusMap.map
        (fun p => (p.1, protoToReplicationStatus p.2.after))) = false := by
      rw [isGTIDBasedOf_map, List.any_eq_false]
      intro p hp
      simp [hall p hp]
    obtain ⟨pm, hpm⟩ := insertPrimaries_ok_of_decodes primaryStatusMap
      (buildPositionMap false (statusMap.map
        (fun p => (p.1, protoToReplicationStatus p.2.after))) []) hdec
    refine ⟨pm, ?_, ?_⟩
    · simp only [FindPositionsOfAllCandidates]
      rw [hG]
      simp only [Bool.false_and, Bool.false_eq_true, if_false]
      rw [hpm]
    · intro p hp hnp
      obtain ⟨a, st⟩ := p
      rw [insertPrimaries_lookup_notin primaryStatusMap _ pm a hpm hnp]
      have hmem : (a, protoToReplicationStatus st.after)
          ∈ statusMap.map
            (fun p => (p.1, protoToReplicationStatus p.2.after)) :=
        List.mem_map_of_mem _ hp
      have hndR : ((statusMap.map
          (fun p => (p.1, protoToReplicationStatus p.2.after))).map
          (fun p => p.1)).Nodup := by
        rw [rsm_keys]
        exact hndS
      exact buildPositionMap_lookup_mem false _ _ a _ hndR hmem

/-- A set-based (MySQL 5.6) position used by the witnesses. -/
def relayGTIDPos : Position := ⟨some (.mysql56 [("sid1", 1, 5)])⟩

/-- A stop-replication status whose after-status carries set-based
positions. -/
def statusGTID : StopReplicationStatus :=
  { before := none
    after := some
      { ioState := .running, sqlState := .running, position := relayGTIDPos,
        relayLogPosition := relayGTIDPos, backupRunning := false } }

/-- A set-based executed position for a demoted primary. -/
def primaryPosW : Position := ⟨some (.mysql56 [("sid2", 1, 3)])⟩

/-- A demoted primary's status with a decodable position. -/
def primaryStatusW : PrimaryStatus := { position := .valid primaryPosW }

/-- A stop-replication status whose after-status carries file-offset
positions. -/
def statusFilePos : StopReplicationStatus :=
  { before := none
    after := some
      { ioState := .running, sqlState := .running,
        position := ⟨some (.filePos "binlog.000001" 120)⟩,
        relayLogPosition := ⟨some (.filePos "relay.000002" 88)⟩,
        backupRunning := false } }

/-- Witness for C6 on a one-replica, one-demoted-primary success. -/
theorem findPositions_ok_characterization_w :
    FindPositionsOfAllCandidates [("a", statusGTID)] [("p", primaryStatusW)]
      = .ok ([("a", relayGTIDPos), ("p", primaryPosW)], true) ∧
    (∃ pos, DecodePosition primaryStatusW.position = .ok pos ∧
      alookup [("a", relayGTIDPos), ("p", primaryPosW)] "p" = some pos) :=
  ⟨rfl,
    (findPositions_ok_characterization [("a", statusGTID)]
      [("p", primaryStatusW)] [("a", relayGTIDPos), ("p", primaryPosW)] true
      (by decide) (by decide) rfl).2.1 ("p", primaryStatusW) (by decide)⟩

/-- Witness for C7 on a status map mixing set-based and file-offset
relay positions. -/
theorem findPositions_mixed_is_fatal_w :
    (∃ p ∈ [("a", statusGTID), ("b", statusFilePos)],
      (protoToReplicationStatus p.2.after).relayLogPosition.isMysql56
        = true) ∧
    (∃ p ∈ [("a", statusGTID), ("b", statusFilePos)],
      (protoToReplicationStatus p.2.after).relayLogPosition.isMysql56
        = false) ∧
    (∃ e, FindPositionsOfAllCandidates
      [("a", statusGTID), ("b", statusFilePos)] [] = .error e) :=
  ⟨by decide, by decide,
    findPositions_mixed_is_fatal [("a", statusGTID), ("b", statusFilePos)]
      [] (by decide) (by decide)⟩

/-- Witness for C8 on a GTID-based status map containing a node with a
zero relay position. -/
theorem findPositions_zero_relay_w :
    (([("a", statusGTID), ("b", statusTrivial)].map
        (fun p : String × StopReplicationStatus => p.1)).Nodup) ∧
    (∃ e, FindPositionsOfAllCandidates
      [("a", statusGTID), ("b", statusTrivial)] [] = .error e) :=
  ⟨by decide,
    (findPositions_zero_relay [("a", statusGTID), ("b", statusTrivial)] []
      (by decide)).1 ⟨by decide, by decide⟩⟩

end ReparentUtil
